import Mathlib

/-!
Verification of the alma-api-job-runner tool (Go) against its specification.

The development shallowly embeds the core of the program:
* the data model of `almajob.go` (AlmaJob, AlmaJobInstance, DescAndValue,
  LinkAndValue, Parameter, Counter),
* the error classifier `Collapse` of `almaerror.go` (both revisions present
  in the sources: the table-based one and the code-message passthrough),
* the retry controller `RetrySubmitJob` of `main.go`,
* the pure response-processing core of `SubmitJob` of `main.go`,
* the polling loop `MonitorJobInstance` of `main.go`,
* an XML document model together with the serializer/parser that Go's
  `encoding/xml` derives from the struct tags of `almajob.go`.

Go errors produced with `fmt.Errorf`/`errors.New` are flat strings, so
errors are modelled as `String`.  Nil pointers are modelled as `Option`;
a nil-pointer dereference (a Go panic) is modelled by an `Option` result
being `none`.
-/

/-- DescAndValue stores the value and the desc attribute of an element
(almajob.go). -/
structure DescAndValue where
  desc : String
  value : String
deriving DecidableEq

/-- LinkAndValue stores the value and the link attribute of an element
(almajob.go). -/
structure LinkAndValue where
  link : String
  value : String
deriving DecidableEq

/-- Parameter stores a job's related parameters (almajob.go).  `Name` is a
plain (non-pointer) struct field in Go, so it is not an `Option` here. -/
structure Parameter where
  name : DescAndValue
  value : String
deriving DecidableEq

/-- AlmaJob maps XML data from the API about jobs (almajob.go).  The
`XMLName` field is bookkeeping fixed to the element name "job" by the
decoder and is kept implicit: the parser below only accepts a root element
named "job", matching the decoder's check.  Go pointer fields
(`*DescAndValue`, `*LinkAndValue`) become `Option`. -/
structure AlmaJob where
  link : String
  id : String
  name : String
  description : String
  type : Option DescAndValue
  category : Option DescAndValue
  content : Option DescAndValue
  schedule : Option DescAndValue
  creator : String
  nextRun : String
  parameters : List Parameter
  relatedProfile : Option LinkAndValue
  additionalInfo : Option LinkAndValue
deriving DecidableEq

/-- Counter stores a job instance counter (almajob.go). -/
structure Counter where
  type : DescAndValue
  value : String
deriving DecidableEq

/-- AlmaJobInfo stores info about a job (almajob.go). -/
structure AlmaJobInfo where
  link : String
  id : String
  name : String
  description : String
  type : Option DescAndValue
  category : Option DescAndValue
deriving DecidableEq

/-- AlmaJobInstance maps XML data from the API about job instances
(almajob.go).  The `Progress float64` field is omitted: it is a
floating-point value that no control flow of the program reads, and the
monitor loop only inspects `EndTime` and `Status`. -/
structure AlmaJobInstance where
  link : String
  id : String
  externalID : String
  name : String
  submittedBy : Option DescAndValue
  submitTime : String
  startTime : String
  endTime : String
  status : Option DescAndValue
  statusDate : String
  alerts : List DescAndValue
  counters : List Counter
  actions : List String
  jobInfo : Option AlmaJobInfo
deriving DecidableEq

/-- APIError stores the data from Alma API errors, table-based revision
(almaerror.go).  In Go the error list is a list of structs whose only
payload is the integer `ErrorCode`; the nesting carries no further data,
so the list is flattened to the codes. -/
structure APIError where
  errorList : List Int
deriving DecidableEq

/-- The switch over error codes inside `Collapse` (almaerror.go lines
28-61).  Every case of the Go switch returns, so the switch is a pure
function of the code; each message is exactly the `fmt.Errorf` output of
the corresponding case. -/
def collapseSwitch (c : Int) : String :=
  if c = 402215 then "invalid job id format (402215)"
  else if c = 402216 then "invalid job id (402216)"
  else if c = 402218 then "invalid job instance id (402218)"
  else if c = 402220 then "operation was not provided (402220)"
  else if c = 402221 then "operation is not supported (402221)"
  else if c = 402222 then "execution threshold reached (402222)"
  else if c = 402223 then "execution threshold reached (402223)"
  else if c = 402224 then "an internal error occured (402224)"
  else if c = 402225 then "an internal error occured (402225)"
  else if c = 402226 then "an internal error occured (402226)"
  else if c = 402228 then "mandatory parameter is missing from input (402228)"
  else if c = 402229 then "mandatory parameter value is empty (402229)"
  else if c = 402248 then "cannot submit scheduled job (402248)"
  else if c = 402249 then "invalid scheduled job category (402249)"
  else if c = 402231 then "job in consisted of more than one task - executing such job is currently not supported via the API (402231)"
  else "unknown error"

/-- Collapse returns the first APIError as a Go error (almaerror.go lines
26-64).  The Go `for` loop returns in every branch of the switch, so only
the first list entry is ever inspected; an empty list falls through to
the final `return errors.New("unreachable error")`. -/
def APIError.Collapse (e : APIError) : String :=
  match e.errorList with
  | c :: _ => collapseSwitch c
  | [] => "unreachable error"

/-- One entry of the error list in the 2021 revision of the APIError
struct (src/unnamed/part_001): a string `ErrorCode` and an
`ErrorMessage`. -/
structure ErrorEntry where
  errorCode : String
  errorMessage : String
deriving DecidableEq

/-- APIError in its 2021 revision (src/unnamed/part_001), with string
codes and messages. -/
structure APIErrorV2 where
  errorList : List ErrorEntry
deriving DecidableEq

/-- Collapse in its 2021 revision (src/unnamed/part_001 lines 26-31):
if the error list is non-empty, format the first entry as
"code: message"; otherwise return "unknown error". -/
def APIErrorV2.Collapse (e : APIErrorV2) : String :=
  match e.errorList with
  | first :: _ => first.errorCode ++ ": " ++ first.errorMessage
  | [] => "unknown error"

/-- The observable outcome of `RetrySubmitJob` (main.go lines 329-344):
the returned job instance link and error, together with the trace of
backoff sleeps (in seconds, in order) and the number of calls made to
`SubmitJob`. -/
structure RetryTrace where
  link : String
  err : Option String
  sleeps : List Nat
  attempts : Nat
deriving DecidableEq

/-- The loop body of `RetrySubmitJob` (main.go lines 330-342).  `fuel` is
the number of remaining iterations (`maxRetries - retry`), `retry` the Go
loop counter.  On failure the code logs, sleeps `(retry+1)*(retry+1)`
seconds and continues - unconditionally, also on the final iteration.
When the loop ends, the function returns `""` and the exhaustion error
(main.go line 343). -/
def retryAux (submit : Nat → Except String String) :
    Nat → Nat → List Nat → Nat → RetryTrace
  | 0, _, sleeps, attempts =>
      ⟨"", some "maximum number of retries reached", sleeps.reverse, attempts⟩
  | fuel + 1, retry, sleeps, attempts =>
      match submit retry with
      | Except.ok jobInstanceLink => ⟨jobInstanceLink, none, sleeps.reverse, attempts + 1⟩
      | Except.error _ =>
          retryAux submit fuel (retry + 1) ((retry + 1) * (retry + 1) :: sleeps) (attempts + 1)

/-- RetrySubmitJob retries SubmitJob max retries times (main.go lines
329-344).  `maxRetries` is a Go `int` and may be non-positive, in which
case the `for retry := 0; retry < maxRetries` loop runs zero times.  The
submission attempt is abstracted as `submit`, indexed by the value of the
loop counter at the call. -/
def RetrySubmitJob (maxRetries : Int) (submit : Nat → Except String String) : RetryTrace :=
  retryAux submit maxRetries.toNat 0 [] 0

/-- The pure response-processing core of `SubmitJob` (main.go lines
386-419), given the HTTP status code, the status text (Go's
`resp.Status`), the raw body text (used verbatim on statuses other than
200 and 400; the `ioutil.ReadAll` error branch is not modelled), the
result of XML-decoding the body as an `APIError` (used on 400) and as an
`AlmaJob` (used on 200).  The result is `none` exactly when the Go code
panics: on a 200 response whose decoded job has a nil `AdditionalInfo`
pointer, line 419 `returnedJob.AdditionalInfo.Link` dereferences nil. -/
def SubmitJobProcess (statusCode : Nat) (statusText : String) (bodyText : String)
    (decodedErr : Except String APIErrorV2) (decodedJob : Except String AlmaJob) :
    Option (Except String String) :=
  if statusCode = 400 then
    match decodedErr with
    | Except.error e =>
        some (Except.error
          ("alma API request failed, HTTP status " ++ statusText ++ ", couldn't read body: " ++ e))
    | Except.ok apiErr =>
        some (Except.error
          ("alma API request failed, HTTP status " ++ statusText ++ ", " ++ apiErr.Collapse))
  else if statusCode ≠ 200 then
    some (Except.error ("alma API request failed: " ++ statusText ++ " - " ++ bodyText))
  else
    match decodedJob with
    | Except.error e => some (Except.error e)
    | Except.ok returnedJob =>
        match returnedJob.additionalInfo with
        | some info => some (Except.ok info.link)
        | none => none

/-- The loop of `MonitorJobInstance` (main.go lines 425-435).  `fetch`
abstracts `GetJobInstance`, indexed by the loop counter `i`; the Go
function always returns a non-nil instance pointer alongside a possible
error, hence the pair type.  `fuel` counts the remaining iterations.
Inside the loop, `instance, err := GetJobInstance(...)` shadows the named
return value `instance`; the loop exhausting its iterations reaches
`return instance, fmt.Errorf(...)` (line 436) with the OUTER `instance`,
which was never assigned and is still nil - modelled by the `none` first
component.  Lines 430-431 read `instance.Status.Desc` and
`instance.Status.Value`; when the fetched instance's `Status` pointer is
nil, the program panics, modelled by an outer `none` result. -/
def monitorAux (fetch : Nat → AlmaJobInstance × Option String) :
    Nat → Nat → Option (Option AlmaJobInstance × Option String)
  | 0, _ => some (none, some "job monitor has been running for 23 hours, exiting")
  | fuel + 1, i =>
      let r := fetch i
      match r.2 with
      | some e => some (some r.1, some e)
      | none =>
          match r.1.status with
          | none => none
          | some st =>
              if r.1.endTime ≠ "" ∧ st.value ≠ "FINALIZING" then
                some (some r.1, none)
              else
                monitorAux fetch fuel (i + 1)

/-- MonitorJobInstance requests the job instance until the job is complete
or approximately 23 hours pass (main.go lines 424-437): the loop
`for i := 1; i < 2761; i++` runs at most 2760 iterations starting at
`i = 1`. -/
def MonitorJobInstance (fetch : Nat → AlmaJobInstance × Option String) :
    Option (Option AlmaJobInstance × Option String) :=
  monitorAux fetch 2760 1

/-! ## Retry controller: shared lemmas -/

/-- When every submission attempt fails, `retryAux` runs its full fuel:
the result has an empty link, the bare exhaustion error, one recorded
sleep per remaining iteration, and one attempt per remaining iteration. -/
theorem retryAux_all_fail (submit : Nat → Except String String)
    (hfail : ∀ i, ∃ e, submit i = Except.error e) :
    ∀ (fuel retry : Nat) (sleeps : List Nat) (att : Nat),
      (retryAux submit fuel retry sleeps att).link = "" ∧
      (retryAux submit fuel retry sleeps att).err = some "maximum number of retries reached" ∧
      (retryAux submit fuel retry sleeps att).sleeps.length = sleeps.length + fuel ∧
      (retryAux submit fuel retry sleeps att).attempts = att + fuel := by
  intro fuel
  induction fuel with
  | zero => intro retry sleeps att; simp [retryAux]
  | succ n ih =>
      intro retry sleeps att
      obtain ⟨e, he⟩ := hfail retry
      simp only [retryAux, he]
      obtain ⟨h1, h2, h3, h4⟩ := ih (retry + 1) ((retry + 1) * (retry + 1) :: sleeps) (att + 1)
      refine ⟨h1, h2, ?_, ?_⟩
      · rw [h3]; simp; omega
      · rw [h4]; omega

/-- Boolean test that the first list is an initial segment of the
second. -/
def startsWith : List Char → List Char → Bool
  | [], _ => true
  | _ :: _, [] => false
  | a :: as, b :: bs => a == b && startsWith as bs

/-- Boolean test that the first list occurs as a contiguous run inside
the second. -/
def hasSub (needle : List Char) : List Char → Bool
  | [] => startsWith needle []
  | c :: t => startsWith needle (c :: t) || hasSub needle t

/-- Concrete payload of the end-to-end scenario: HTTP 400 body with
error list `[{errorCode: "402229", errorMessage: "mandatory parameter
value is empty"}]`. -/
def payload402229 : APIErrorV2 :=
  ⟨[⟨"402229", "mandatory parameter value is empty"⟩]⟩

/-- A submission that fails on every attempt with exactly the error
`SubmitJob` produces for an HTTP 400 response carrying
`payload402229`. -/
def submit402229 : Nat → Except String String := fun _ =>
  (SubmitJobProcess 400 "400 Bad Request" ""
      (Except.ok payload402229) (Except.error "response body not decoded")).getD
    (Except.error "")

/-! ## C2 -/

/-- C2 counterexample: the exhaustion error returned by `RetrySubmitJob`
does not wrap the last observed failure.  Two runs whose final attempts
fail with different errors return identical results, so the error of the
final attempt is not recoverable from the returned value, and the failure
text does not occur inside the returned error message. -/
theorem retryExhausted_no_wrap_counterexample :
    RetrySubmitJob 1 (fun _ => Except.error "connection refused") =
      RetrySubmitJob 1 (fun _ => Except.error "tls handshake failure") ∧
    (RetrySubmitJob 1 (fun _ => Except.error "connection refused")).err =
      some "maximum number of retries reached" ∧
    hasSub "connection refused".toList
      "maximum number of retries reached".toList = false := by
  decide

/-- C2 amended: for every maxAttempts >= 1, when every submission attempt
fails, `RetrySubmitJob` returns the terminal error "maximum number of
retries reached" with an empty link; the last observed failure is only
logged and is not wrapped in (or recoverable from) the returned error. -/
theorem retryExhausted_terminal_error (m : Int) (hm : 1 ≤ m)
    (submit : Nat → Except String String)
    (hfail : ∀ i, ∃ e, submit i = Except.error e) :
    (RetrySubmitJob m submit).link = "" ∧
    (RetrySubmitJob m submit).err = some "maximum number of retries reached" := by
  obtain ⟨h1, h2, _, _⟩ := retryAux_all_fail submit hfail m.toNat 0 [] 0
  exact ⟨h1, h2⟩

/-- C2 witness: the amended statement at maxAttempts 2 and a submission
failing every attempt with "boom". -/
theorem retryExhausted_terminal_error_witness :
    (RetrySubmitJob 2 (fun _ => Except.error "boom")).link = "" ∧
    (RetrySubmitJob 2 (fun _ => Except.error "boom")).err =
      some "maximum number of retries reached" :=
  retryExhausted_terminal_error 2 (by decide) _ (fun _ => ⟨"boom", rfl⟩)

/-! ## C3 -/

/-- C3 counterexample: with maxAttempts 2 and a submission failing every
attempt with the HTTP 400 / code 402229 classified error, the run performs
two backoff sleeps (1s then 4s), not exactly one: the code sleeps after
every failed attempt, including the final one. -/
theorem retry_sleep_count_counterexample :
    (RetrySubmitJob 2 submit402229).sleeps = [1, 4] ∧
    ¬ (RetrySubmitJob 2 submit402229).sleeps.length = 1 := by
  decide

/-- C3 amended: a backoff sleep occurs after every failed attempt,
including the final one (one sleep per failed attempt); with maxAttempts 2
and a submission failing every attempt with the HTTP 400 error payload of
code 402229, the run ends in the exhaustion error (which does not wrap the
classified error) after exactly two backoff sleeps of 1 then 4 seconds. -/
theorem retry_sleeps_after_every_failed_attempt :
    (∀ (n : Nat) (submit : Nat → Except String String),
        (∀ i, ∃ e, submit i = Except.error e) →
        (RetrySubmitJob (Int.ofNat n) submit).sleeps.length = n) ∧
    RetrySubmitJob 2 submit402229 =
      ⟨"", some "maximum number of retries reached", [1, 4], 2⟩ := by
  constructor
  · intro n submit hfail
    obtain ⟨_, _, h3, _⟩ := retryAux_all_fail submit hfail (Int.ofNat n).toNat 0 [] 0
    simpa using h3
  · decide

/-- C3 witness: the general part of the amended statement at three
attempts that all fail. -/
theorem retry_sleeps_after_every_failed_attempt_witness :
    (RetrySubmitJob (Int.ofNat 3) (fun _ => Except.error "x")).sleeps.length = 3 :=
  retry_sleeps_after_every_failed_attempt.1 3 _ (fun _ => ⟨"x", rfl⟩)

/-! ## C4 -/

/-- C4: with maxAttempts 3 and a submission failing on attempts 0 and 1
and succeeding on attempt 2, `RetrySubmitJob` performs exactly the two
backoff sleeps 1s and 4s (the quadratic law (attempt+1)^2) and returns the
link produced by the third attempt. -/
theorem retry_fail_twice_then_succeed (submit : Nat → Except String String)
    (e0 e1 link : String)
    (h0 : submit 0 = Except.error e0) (h1 : submit 1 = Except.error e1)
    (h2 : submit 2 = Except.ok link) :
    RetrySubmitJob 3 submit = ⟨link, none, [1, 4], 3⟩ := by
  have e : RetrySubmitJob 3 submit = retryAux submit (0 + 1 + 1 + 1) 0 [] 0 := rfl
  rw [e]
  simp only [retryAux, h0, h1, h2]
  rfl

/-- C4 witness: the statement at a concrete submission failing twice then
succeeding with link "https://instance". -/
theorem retry_fail_twice_then_succeed_witness :
    RetrySubmitJob 3
        (fun i => if i < 2 then Except.error "fail" else Except.ok "https://instance") =
      ⟨"https://instance", none, [1, 4], 3⟩ :=
  retry_fail_twice_then_succeed _ "fail" "fail" "https://instance" rfl rfl rfl

/-! ## C5 -/

/-- C5: for every maxAttempts <= 0, `RetrySubmitJob` performs zero
submission attempts and immediately returns the retries-exhausted error
(with no sleeps). -/
theorem retry_nonpositive_immediate (m : Int) (hm : m ≤ 0)
    (submit : Nat → Except String String) :
    RetrySubmitJob m submit =
      ⟨"", some "maximum number of retries reached", [], 0⟩ := by
  unfold RetrySubmitJob
  rw [Int.toNat_of_nonpos hm]
  rfl

/-- C5 witness: the statement at maxAttempts 0, with a submission that
would succeed if it were ever attempted. -/
theorem retry_nonpositive_immediate_witness :
    RetrySubmitJob 0 (fun _ => Except.ok "https://instance") =
      ⟨"", some "maximum number of retries reached", [], 0⟩ :=
  retry_nonpositive_immediate 0 (by decide) _

/-! ## Monitor loop: shared lemmas -/

/-- A queued, still-running snapshot: no end time, non-terminal status. -/
def queuedSnap : AlmaJobInstance :=
  ⟨"", "1108569450000121", "", "Export Physical Items", none, "", "", "",
   some ⟨"Queued", "QUEUED"⟩, "", [], [], [], none⟩

/-- When every fetch in the window succeeds with a non-terminal snapshot
(empty end time, or the transitional FINALIZING status), the monitor loop
consumes all its fuel and ends with a nil instance and the 23-hour
error. -/
theorem monitorAux_all_nonterminal (fetch : Nat → AlmaJobInstance × Option String) :
    ∀ (fuel i : Nat),
      (∀ j, i ≤ j → j < i + fuel →
        (fetch j).2 = none ∧
        ∃ st, (fetch j).1.status = some st ∧
          ((fetch j).1.endTime = "" ∨ st.value = "FINALIZING")) →
      monitorAux fetch fuel i =
        some (none, some "job monitor has been running for 23 hours, exiting") := by
  intro fuel
  induction fuel with
  | zero => intro i _; rfl
  | succ n ih =>
      intro i h
      obtain ⟨herr, st, hst, hnt⟩ := h i (le_refl i) (by omega)
      have hguard : ¬((fetch i).1.endTime ≠ "" ∧ st.value ≠ "FINALIZING") := by
        rcases hnt with h1 | h1 <;> simp [h1]
      rw [monitorAux]
      simp only [herr, hst, if_neg hguard]
      exact ih (i + 1) (fun j hj1 hj2 => h j (by omega) (by omega))

/-! ## C1 -/

/-- C1 counterexample: with a status source that returns a non-terminal
snapshot on every poll up to the iteration cap, the monitor loop does
return the timeout error, but the instance returned alongside it is nil
(`none`), not the last-seen snapshot: the loop's `instance, err := ...`
shadows the named return value, so line 436 returns the never-assigned
outer `instance`. -/
theorem monitor_timeout_nil_instance_counterexample :
    MonitorJobInstance (fun _ => (queuedSnap, none)) =
      some (none, some "job monitor has been running for 23 hours, exiting") ∧
    (none : Option AlmaJobInstance) ≠ some queuedSnap := by
  constructor
  · exact monitorAux_all_nonterminal _ 2760 1
      (fun j _ _ => ⟨rfl, ⟨"Queued", "QUEUED"⟩, rfl, Or.inl rfl⟩)
  · simp

/-- C1 amended: for every run of the monitor loop in which every fetched
status snapshot is non-terminal up to the iteration cap of 2760 polls, the
loop returns the "running for 23 hours" timeout error together with a nil
instance - the last-seen snapshot is NOT returned (the loop variable
shadows the named return value), so the caller cannot report partial
progress from it. -/
theorem monitor_timeout_returns_nil (fetch : Nat → AlmaJobInstance × Option String)
    (h : ∀ j, 1 ≤ j → j ≤ 2760 →
      (fetch j).2 = none ∧
      ∃ st, (fetch j).1.status = some st ∧
        ((fetch j).1.endTime = "" ∨ st.value = "FINALIZING")) :
    MonitorJobInstance fetch =
      some (none, some "job monitor has been running for 23 hours, exiting") :=
  monitorAux_all_nonterminal fetch 2760 1 (fun j hj1 hj2 => h j hj1 (by omega))

/-- C1 witness: the amended statement for the constant queued status
source. -/
theorem monitor_timeout_returns_nil_witness :
    MonitorJobInstance (fun _ => (queuedSnap, none)) =
      some (none, some "job monitor has been running for 23 hours, exiting") :=
  monitor_timeout_returns_nil _
    (fun j _ _ => ⟨rfl, ⟨"Queued", "QUEUED"⟩, rfl, Or.inl rfl⟩)

/-! ## C6 -/

/-- A snapshot that is still finalizing: end time present, status
FINALIZING. -/
def finalizingSnap : AlmaJobInstance :=
  ⟨"", "1108569450000121", "", "Export Physical Items", none, "", "",
   "2024-01-01T00:00:00Z", some ⟨"Finalizing", "FINALIZING"⟩, "", [], [], [], none⟩

/-- A completed snapshot: end time present, status COMPLETED. -/
def completedSnap : AlmaJobInstance :=
  ⟨"", "1108569450000121", "", "Export Physical Items", none, "", "",
   "2024-01-01T00:05:00Z", some ⟨"Completed", "COMPLETED"⟩, "", [], [], [], none⟩

/-- The two-snapshot stub of the spec scenario: FINALIZING with an end
time on the first poll, COMPLETED with an end time afterwards. -/
def stubFinalizingThenCompleted : Nat → AlmaJobInstance × Option String :=
  fun i => if i = 1 then (finalizingSnap, none) else (completedSnap, none)

/-- C6: a successfully fetched snapshot is returned as terminal by the
monitor loop exactly when its end time is non-empty AND its status value
is not "FINALIZING" (the loop otherwise sleeps and continues); in
particular, on the stub returning the FINALIZING snapshot (with an end
time) first and the COMPLETED snapshot second, the loop does not stop at
the first snapshot and returns the second. -/
theorem monitor_terminal_guard :
    (∀ (fetch : Nat → AlmaJobInstance × Option String) (fuel i : Nat)
        (st : DescAndValue),
      (fetch i).2 = none → (fetch i).1.status = some st →
      monitorAux fetch (fuel + 1) i =
        (if (fetch i).1.endTime ≠ "" ∧ st.value ≠ "FINALIZING" then
          some (some (fetch i).1, none)
        else
          monitorAux fetch fuel (i + 1))) ∧
    MonitorJobInstance stubFinalizingThenCompleted = some (some completedSnap, none) := by
  constructor
  · intro fetch fuel i st herr hst
    rw [monitorAux, herr, hst]
  · rfl

/-- C6 witness: the guard characterization applied at the stub's first
poll - the FINALIZING snapshot has an end time, yet the loop continues
rather than returning it as terminal. -/
theorem monitor_terminal_guard_witness :
    monitorAux stubFinalizingThenCompleted 2760 1 =
      monitorAux stubFinalizingThenCompleted 2759 2 := by
  have h := monitor_terminal_guard.1 stubFinalizingThenCompleted 2759 1
    ⟨"Finalizing", "FINALIZING"⟩ rfl rfl
  simpa using h

/-! ## C7 -/

/-- The codes handled by named cases of the `Collapse` switch
(almaerror.go lines 29-58). -/
def knownCodes : List Int :=
  [402215, 402216, 402218, 402220, 402221, 402222, 402223, 402224,
   402225, 402226, 402228, 402229, 402248, 402249, 402231]

/-- C7: for every non-empty error payload, the table-based `Collapse`
uses only the first entry (entries after the first never affect the
result); its code is mapped many-to-one through the fixed table: codes
402222 and 402223 both yield the threshold-reached kind, codes 402224,
402225 and 402226 all yield the internal-error kind, and every code
outside the table yields the unknown kind. -/
theorem collapse_first_entry_table :
    (∀ (c : Int) (rest : List Int),
        APIError.Collapse ⟨c :: rest⟩ = APIError.Collapse ⟨[c]⟩) ∧
    (APIError.Collapse ⟨[402222]⟩ = "execution threshold reached (402222)" ∧
     APIError.Collapse ⟨[402223]⟩ = "execution threshold reached (402223)") ∧
    (APIError.Collapse ⟨[402224]⟩ = "an internal error occured (402224)" ∧
     APIError.Collapse ⟨[402225]⟩ = "an internal error occured (402225)" ∧
     APIError.Collapse ⟨[402226]⟩ = "an internal error occured (402226)") ∧
    (∀ c : Int, c ∉ knownCodes → APIError.Collapse ⟨[c]⟩ = "unknown error") := by
  refine ⟨fun c rest => rfl, by decide, by decide, ?_⟩
  intro c hc
  simp only [knownCodes, List.mem_cons, List.not_mem_nil, or_false, not_or] at hc
  obtain ⟨h1, h2, h3, h4, h5, h6, h7, h8, h9, h10, h11, h12, h13, h14, h15⟩ := hc
  show collapseSwitch c = "unknown error"
  simp [collapseSwitch, h1, h2, h3, h4, h5, h6, h7, h8, h9, h10, h11, h12, h13, h14, h15]

/-- C7 witness: only-first-entry at a concrete two-entry payload, and the
unknown kind at the concrete unrecognized code 999999. -/
theorem collapse_first_entry_table_witness :
    APIError.Collapse ⟨[402222, 402215]⟩ = APIError.Collapse ⟨[402222]⟩ ∧
    APIError.Collapse ⟨[999999]⟩ = "unknown error" :=
  ⟨collapse_first_entry_table.1 402222 [402215],
   collapse_first_entry_table.2.2.2 999999 (by decide)⟩

/-! ## C8 -/

/-- C8: the 2021 `Collapse` (src/unnamed/part_001) returns the unknown
kind with its generic message on an empty error list, and returns a value
for every payload: each non-empty payload yields the first entry formatted
as "code: message", so classification always succeeds and never
propagates a secondary error. -/
theorem collapse_total_empty_unknown (e : APIErrorV2) :
    (e.errorList = [] → e.Collapse = "unknown error") ∧
    (∀ (first : ErrorEntry) (rest : List ErrorEntry),
        e.errorList = first :: rest →
        e.Collapse = first.errorCode ++ ": " ++ first.errorMessage) := by
  constructor
  · intro h; rw [APIErrorV2.Collapse, h]
  · intro first rest h; rw [APIErrorV2.Collapse, h]

/-- C8 witness: the empty payload collapses to "unknown error", and a
one-entry payload to its formatted first entry. -/
theorem collapse_total_empty_unknown_witness :
    APIErrorV2.Collapse ⟨[]⟩ = "unknown error" ∧
    APIErrorV2.Collapse ⟨[⟨"402229", "mandatory parameter value is empty"⟩]⟩ =
      "402229" ++ ": " ++ "mandatory parameter value is empty" :=
  ⟨(collapse_total_empty_unknown ⟨[]⟩).1 rfl,
   (collapse_total_empty_unknown ⟨[⟨"402229", "mandatory parameter value is empty"⟩]⟩).2
     ⟨"402229", "mandatory parameter value is empty"⟩ [] rfl⟩

/-! ## C10 -/

/-- C10: on an HTTP 200 response whose body decodes as a job document,
`SubmitJob` returns the Link of the document's additional_info element
whenever that element is present; when the decoded job lacks
additional_info, the access `returnedJob.AdditionalInfo.Link` is an
unguarded nil dereference and `SubmitJob` returns neither a handle nor an
error (modelled by the `none` outcome). -/
theorem submitJob_additional_info (statusText bodyText : String)
    (decodedErr : Except String APIErrorV2) (job : AlmaJob) :
    (∀ info : LinkAndValue, job.additionalInfo = some info →
        SubmitJobProcess 200 statusText bodyText decodedErr (Except.ok job) =
          some (Except.ok info.link)) ∧
    (job.additionalInfo = none →
        SubmitJobProcess 200 statusText bodyText decodedErr (Except.ok job) = none) := by
  constructor
  · intro info hinfo
    simp [SubmitJobProcess, hinfo]
  · intro hnone
    simp [SubmitJobProcess, hnone]

/-- C10 witness: a decoded job carrying additional_info yields its link;
the same job with a nil additional_info pointer yields the crash
outcome. -/
theorem submitJob_additional_info_witness :
    SubmitJobProcess 200 "200 OK" "" (Except.error "unused")
        (Except.ok ⟨"", "M26714670000011", "", "", none, none, none, none, "", "", [],
          none, some ⟨"https://instance", "info"⟩⟩) =
      some (Except.ok "https://instance") ∧
    SubmitJobProcess 200 "200 OK" "" (Except.error "unused")
        (Except.ok ⟨"", "M26714670000011", "", "", none, none, none, none, "", "", [],
          none, none⟩) =
      none :=
  ⟨(submitJob_additional_info "200 OK" "" (Except.error "unused") _).1
      ⟨"https://instance", "info"⟩ rfl,
   (submitJob_additional_info "200 OK" "" (Except.error "unused") _).2 rfl⟩

/-! ## XML document model for the job schema (C9)

The serializer and parser below are the functions that Go's
`encoding/xml` derives from the struct tags of `almajob.go` for the
`AlmaJob` type: `LoadParameters` (main.go lines 305-326) decodes a
document into an `AlmaJob`, and `SubmitJob` (main.go lines 349-354)
encodes an `AlmaJob` as the request body.

Faithfulness notes on `encoding/xml` behaviour:
* `omitempty` omits an attribute or element produced from an empty
  string, a nil pointer or an empty slice; structs (`Parameter.Name`) are
  never omitted.
* empty character data produces no text node; a field reads back the
  concatenation of the text children of its element.
* when several elements (or attributes) match the same field, each one is
  decoded into the field in document order, so the last match wins; for
  the slice field `parameters>parameter` every match is appended.
* the decoder checks that the root element is named `job` (the `XMLName`
  field's tag) and fails otherwise.
-/

/-- An XML node: an element with a name, attributes and children, or
character data. -/
inductive XMLNode where
  | elem (name : String) (attrs : List (String × String)) (children : List XMLNode)
  | text (s : String)

/-- Concatenated character data directly under an element, which is what
a string field tagged with that element (or with `,chardata`) reads. -/
def textOf (children : List XMLNode) : String :=
  children.foldl
    (fun acc n =>
      match n with
      | XMLNode.text s => acc ++ s
      | XMLNode.elem _ _ _ => acc)
    ""

/-- The value of the last attribute with the given name, or "" when
absent. -/
def attrOf (name : String) (attrs : List (String × String)) : String :=
  (((attrs.filter (fun a => a.fst == name)).getLast?).map Prod.snd).getD ""

/-- The child elements with the given name. -/
def elemsNamed (name : String) (children : List XMLNode) : List XMLNode :=
  children.filter
    (fun n =>
      match n with
      | XMLNode.elem nm _ _ => nm == name
      | XMLNode.text _ => false)

/-- The attributes and children of the last child element with the given
name, when present. -/
def lastElemNamed (name : String) (children : List XMLNode) :
    Option (List (String × String) × List XMLNode) :=
  match (elemsNamed name children).getLast? with
  | some (XMLNode.elem _ attrs cs) => some (attrs, cs)
  | _ => none

/-- An attribute marked `omitempty`: omitted when the value is "". -/
def attrOmitEmpty (name val : String) : List (String × String) :=
  if val = "" then [] else [(name, val)]

/-- Character data: the empty string writes no text node. -/
def textNode (s : String) : List XMLNode :=
  if s = "" then [] else [XMLNode.text s]

/-- A string field marked `omitempty`: no element when the value is "". -/
def strElem (tag s : String) : List XMLNode :=
  if s = "" then [] else [XMLNode.elem tag [] (textNode s)]

/-- A `*DescAndValue` field marked `omitempty`: no element for a nil
pointer, otherwise an element with an `omitempty` desc attribute and the
value as character data. -/
def davElem (tag : String) : Option DescAndValue → List XMLNode
  | none => []
  | some d => [XMLNode.elem tag (attrOmitEmpty "desc" d.desc) (textNode d.value)]

/-- A `*LinkAndValue` field marked `omitempty`: no element for a nil
pointer, otherwise an element with an `omitempty` link attribute and the
value as character data. -/
def lavElem (tag : String) : Option LinkAndValue → List XMLNode
  | none => []
  | some l => [XMLNode.elem tag (attrOmitEmpty "link" l.link) (textNode l.value)]

/-- One `parameter` element: the `Name` struct field is always emitted,
the `Value` string field is `omitempty`. -/
def paramElem (p : Parameter) : XMLNode :=
  XMLNode.elem "parameter" []
    (XMLNode.elem "name" (attrOmitEmpty "desc" p.name.desc) (textNode p.name.value) ::
      strElem "value" p.value)

/-- The `parameters>parameter` wrapper: an empty slice is omitted. -/
def paramsElem (ps : List Parameter) : List XMLNode :=
  if ps = [] then [] else [XMLNode.elem "parameters" [] (ps.map paramElem)]

/-- The children of the serialized `job` element: the struct fields of
almajob.go lines 13-28 in declaration order, each through its tag. -/
def serializeChildren (j : AlmaJob) : List XMLNode :=
  strElem "id" j.id ++ strElem "name" j.name ++ strElem "description" j.description
    ++ davElem "type" j.type ++ davElem "category" j.category
    ++ davElem "content" j.content ++ davElem "schedule" j.schedule
    ++ strElem "creator" j.creator ++ strElem "next_run" j.nextRun
    ++ paramsElem j.parameters ++ lavElem "related_profile" j.relatedProfile
    ++ lavElem "additional_info" j.additionalInfo

/-- Serialization of an `AlmaJob` as performed by `xml.Encoder.Encode` on
the struct tags of almajob.go lines 13-28. -/
def serialize (j : AlmaJob) : XMLNode :=
  XMLNode.elem "job" (attrOmitEmpty "link" j.link) (serializeChildren j)

/-- Reading a string field: character data of the last matching child
element, or "" when the element is absent. -/
def parseStr (tag : String) (children : List XMLNode) : String :=
  match lastElemNamed tag children with
  | some (_, cs) => textOf cs
  | none => ""

/-- Reading a `*DescAndValue` field: nil when the element is absent. -/
def parseDav (tag : String) (children : List XMLNode) : Option DescAndValue :=
  (lastElemNamed tag children).map (fun ac => ⟨attrOf "desc" ac.fst, textOf ac.snd⟩)

/-- Reading a `*LinkAndValue` field: nil when the element is absent. -/
def parseLav (tag : String) (children : List XMLNode) : Option LinkAndValue :=
  (lastElemNamed tag children).map (fun ac => ⟨attrOf "link" ac.fst, textOf ac.snd⟩)

/-- Reading one `parameter` element. -/
def parseParameter : XMLNode → Parameter
  | XMLNode.elem _ _ cs => ⟨(parseDav "name" cs).getD ⟨"", ""⟩, parseStr "value" cs⟩
  | XMLNode.text _ => ⟨⟨"", ""⟩, ""⟩

/-- Reading the `parameters>parameter` slice field: every `parameter`
child of every `parameters` child, in document order. -/
def parseParams (children : List XMLNode) : List Parameter :=
  (elemsNamed "parameters" children).flatMap
    (fun n =>
      match n with
      | XMLNode.elem _ _ cs => (elemsNamed "parameter" cs).map parseParameter
      | XMLNode.text _ => [])

/-- Parsing a document into an `AlmaJob` as performed by
`xml.Decoder.Decode` on the struct tags of almajob.go lines 13-28.  The
root element must be named "job" (the `XMLName` tag), else the decoder
reports an error. -/
def parse (doc : XMLNode) : Except String AlmaJob :=
  match doc with
  | XMLNode.text _ => Except.error "expected element type <job>"
  | XMLNode.elem nm attrs cs =>
      if nm ≠ "job" then Except.error "expected element type <job>"
      else
        Except.ok
          { link := attrOf "link" attrs
            id := parseStr "id" cs
            name := parseStr "name" cs
            description := parseStr "description" cs
            type := parseDav "type" cs
            category := parseDav "category" cs
            content := parseDav "content" cs
            schedule := parseDav "schedule" cs
            creator := parseStr "creator" cs
            nextRun := parseStr "next_run" cs
            parameters := parseParams cs
            relatedProfile := parseLav "related_profile" cs
            additionalInfo := parseLav "additional_info" cs }

/-! ## Round-trip lemmas for the XML model -/

theorem textOf_textNode (s : String) : textOf (textNode s) = s := by
  by_cases hs : s = ""
  · subst hs; rfl
  · rw [textNode, if_neg hs]
    show "" ++ s = s
    simp

theorem attrOf_attrOmitEmpty (n v : String) : attrOf n (attrOmitEmpty n v) = v := by
  by_cases hv : v = ""
  · subst hv; rfl
  · rw [attrOmitEmpty, if_neg hv]
    simp [attrOf]

theorem elemsNamed_append (t : String) (a b : List XMLNode) :
    elemsNamed t (a ++ b) = elemsNamed t a ++ elemsNamed t b := by
  simp [elemsNamed, List.filter_append]

theorem elemsNamed_strElem_ne (t tag s : String) (h : ¬tag = t) :
    elemsNamed t (strElem tag s) = [] := by
  by_cases hs : s = "" <;> simp [strElem, hs, elemsNamed, h]

theorem elemsNamed_davElem_ne (t tag : String) (x : Option DescAndValue) (h : ¬tag = t) :
    elemsNamed t (davElem tag x) = [] := by
  cases x <;> simp [davElem, elemsNamed, h]

theorem elemsNamed_lavElem_ne (t tag : String) (x : Option LinkAndValue) (h : ¬tag = t) :
    elemsNamed t (lavElem tag x) = [] := by
  cases x <;> simp [lavElem, elemsNamed, h]

theorem elemsNamed_paramsElem_ne (t : String) (ps : List Parameter)
    (h : ¬"parameters" = t) : elemsNamed t (paramsElem ps) = [] := by
  by_cases hp : ps = [] <;> simp [paramsElem, hp, elemsNamed, h]

theorem elemsNamed_strElem_self (t s : String) :
    elemsNamed t (strElem t s) = strElem t s := by
  by_cases hs : s = "" <;> simp [strElem, hs, elemsNamed]

theorem elemsNamed_davElem_self (t : String) (x : Option DescAndValue) :
    elemsNamed t (davElem t x) = davElem t x := by
  cases x <;> simp [davElem, elemsNamed]

theorem elemsNamed_lavElem_self (t : String) (x : Option LinkAndValue) :
    elemsNamed t (lavElem t x) = lavElem t x := by
  cases x <;> simp [lavElem, elemsNamed]

theorem elemsNamed_paramsElem_self (ps : List Parameter) :
    elemsNamed "parameters" (paramsElem ps) = paramsElem ps := by
  by_cases hp : ps = [] <;> simp [paramsElem, hp, elemsNamed]

theorem parseStr_strElem (t s : String) : parseStr t (strElem t s) = s := by
  by_cases hs : s = ""
  · subst hs; rfl
  · rw [parseStr, lastElemNamed, elemsNamed_strElem_self, strElem, if_neg hs]
    simp [textOf_textNode]

theorem parseDav_davElem (t : String) (x : Option DescAndValue) :
    parseDav t (davElem t x) = x := by
  cases x with
  | none => rfl
  | some d =>
      rw [parseDav, lastElemNamed, elemsNamed_davElem_self]
      simp [davElem, attrOf_attrOmitEmpty, textOf_textNode]

theorem parseLav_lavElem (t : String) (x : Option LinkAndValue) :
    parseLav t (lavElem t x) = x := by
  cases x with
  | none => rfl
  | some l =>
      rw [parseLav, lastElemNamed, elemsNamed_lavElem_self]
      simp [lavElem, attrOf_attrOmitEmpty, textOf_textNode]

theorem parseParameter_paramElem (p : Parameter) : parseParameter (paramElem p) = p := by
  rw [paramElem, parseParameter]
  have hname : elemsNamed "name"
      (XMLNode.elem "name" (attrOmitEmpty "desc" p.name.desc) (textNode p.name.value) ::
        strElem "value" p.value) =
      [XMLNode.elem "name" (attrOmitEmpty "desc" p.name.desc) (textNode p.name.value)] := by
    by_cases hv : p.value = "" <;> simp [elemsNamed, strElem, hv]
  have hvalue : elemsNamed "value"
      (XMLNode.elem "name" (attrOmitEmpty "desc" p.name.desc) (textNode p.name.value) ::
        strElem "value" p.value) =
      strElem "value" p.value := by
    by_cases hv : p.value = "" <;> simp [elemsNamed, strElem, hv]
  rw [parseDav, lastElemNamed, hname]
  have hv2 : parseStr "value"
      (XMLNode.elem "name" (attrOmitEmpty "desc" p.name.desc) (textNode p.name.value) ::
        strElem "value" p.value) = p.value := by
    rw [parseStr, lastElemNamed, hvalue]
    by_cases hv : p.value = ""
    · simp [strElem, hv]
    · rw [strElem, if_neg hv]
      simp [textOf_textNode]
  rw [hv2]
  simp [attrOf_attrOmitEmpty, textOf_textNode]

theorem elemsNamed_map_paramElem (ps : List Parameter) :
    elemsNamed "parameter" (ps.map paramElem) = ps.map paramElem := by
  induction ps with
  | nil => rfl
  | cons p t ih =>
      simp only [List.map_cons, elemsNamed, paramElem, List.filter]
      simp only [elemsNamed, paramElem] at ih
      simp [ih]

theorem parseParams_paramsElem (ps : List Parameter) :
    parseParams (paramsElem ps) = ps := by
  by_cases hp : ps = []
  · subst hp; rfl
  · rw [parseParams, elemsNamed_paramsElem_self, paramsElem, if_neg hp]
    simp [elemsNamed_map_paramElem, List.map_map]
    have : parseParameter ∘ paramElem = id := by
      funext p; simp [parseParameter_paramElem]
    rw [this, List.map_id]

theorem parseStr_congr (t : String) (a b : List XMLNode)
    (h : elemsNamed t a = elemsNamed t b) : parseStr t a = parseStr t b := by
  unfold parseStr lastElemNamed
  rw [h]

theorem parseDav_congr (t : String) (a b : List XMLNode)
    (h : elemsNamed t a = elemsNamed t b) : parseDav t a = parseDav t b := by
  unfold parseDav lastElemNamed
  rw [h]

theorem parseLav_congr (t : String) (a b : List XMLNode)
    (h : elemsNamed t a = elemsNamed t b) : parseLav t a = parseLav t b := by
  unfold parseLav lastElemNamed
  rw [h]

theorem parseParams_congr (a b : List XMLNode)
    (h : elemsNamed "parameters" a = elemsNamed "parameters" b) :
    parseParams a = parseParams b := by
  unfold parseParams
  rw [h]

theorem parse_field_id (j : AlmaJob) : parseStr "id" (serializeChildren j) = j.id := by
  rw [parseStr_congr "id" (serializeChildren j) (strElem "id" j.id) (by
    simp [serializeChildren, elemsNamed_append, elemsNamed_strElem_ne,
      elemsNamed_davElem_ne, elemsNamed_lavElem_ne, elemsNamed_paramsElem_ne,
      elemsNamed_strElem_self])]
  exact parseStr_strElem "id" j.id

theorem parse_field_name (j : AlmaJob) :
    parseStr "name" (serializeChildren j) = j.name := by
  rw [parseStr_congr "name" (serializeChildren j) (strElem "name" j.name) (by
    simp [serializeChildren, elemsNamed_append, elemsNamed_strElem_ne,
      elemsNamed_davElem_ne, elemsNamed_lavElem_ne, elemsNamed_paramsElem_ne,
      elemsNamed_strElem_self])]
  exact parseStr_strElem "name" j.name

theorem parse_field_description (j : AlmaJob) :
    parseStr "description" (serializeChildren j) = j.description := by
  rw [parseStr_congr "description" (serializeChildren j)
    (strElem "description" j.description) (by
      simp [serializeChildren, elemsNamed_append, elemsNamed_strElem_ne,
        elemsNamed_davElem_ne, elemsNamed_lavElem_ne, elemsNamed_paramsElem_ne,
        elemsNamed_strElem_self])]
  exact parseStr_strElem "description" j.description

theorem parse_field_creator (j : AlmaJob) :
    parseStr "creator" (serializeChildren j) = j.creator := by
  rw [parseStr_congr "creator" (serializeChildren j) (strElem "creator" j.creator) (by
    simp [serializeChildren, elemsNamed_append, elemsNamed_strElem_ne,
      elemsNamed_davElem_ne, elemsNamed_lavElem_ne, elemsNamed_paramsElem_ne,
      elemsNamed_strElem_self])]
  exact parseStr_strElem "creator" j.creator

theorem parse_field_next_run (j : AlmaJob) :
    parseStr "next_run" (serializeChildren j) = j.nextRun := by
  rw [parseStr_congr "next_run" (serializeChildren j) (strElem "next_run" j.nextRun) (by
    simp [serializeChildren, elemsNamed_append, elemsNamed_strElem_ne,
      elemsNamed_davElem_ne, elemsNamed_lavElem_ne, elemsNamed_paramsElem_ne,
      elemsNamed_strElem_self])]
  exact parseStr_strElem "next_run" j.nextRun

theorem parse_field_type (j : AlmaJob) :
    parseDav "type" (serializeChildren j) = j.type := by
  rw [parseDav_congr "type" (serializeChildren j) (davElem "type" j.type) (by
    simp [serializeChildren, elemsNamed_append, elemsNamed_strElem_ne,
      elemsNamed_davElem_ne, elemsNamed_lavElem_ne, elemsNamed_paramsElem_ne,
      elemsNamed_davElem_self])]
  exact parseDav_davElem "type" j.type

theorem parse_field_category (j : AlmaJob) :
    parseDav "category" (serializeChildren j) = j.category := by
  rw [parseDav_congr "category" (serializeChildren j) (davElem "category" j.category) (by
    simp [serializeChildren, elemsNamed_append, elemsNamed_strElem_ne,
      elemsNamed_davElem_ne, elemsNamed_lavElem_ne, elemsNamed_paramsElem_ne,
      elemsNamed_davElem_self])]
  exact parseDav_davElem "category" j.category

theorem parse_field_content (j : AlmaJob) :
    parseDav "content" (serializeChildren j) = j.content := by
  rw [parseDav_congr "content" (serializeChildren j) (davElem "content" j.content) (by
    simp [serializeChildren, elemsNamed_append, elemsNamed_strElem_ne,
      elemsNamed_davElem_ne, elemsNamed_lavElem_ne, elemsNamed_paramsElem_ne,
      elemsNamed_davElem_self])]
  exact parseDav_davElem "content" j.content

theorem parse_field_schedule (j : AlmaJob) :
    parseDav "schedule" (serializeChildren j) = j.schedule := by
  rw [parseDav_congr "schedule" (serializeChildren j) (davElem "schedule" j.schedule) (by
    simp [serializeChildren, elemsNamed_append, elemsNamed_strElem_ne,
      elemsNamed_davElem_ne, elemsNamed_lavElem_ne, elemsNamed_paramsElem_ne,
      elemsNamed_davElem_self])]
  exact parseDav_davElem "schedule" j.schedule

theorem parse_field_related_profile (j : AlmaJob) :
    parseLav "related_profile" (serializeChildren j) = j.relatedProfile := by
  rw [parseLav_congr "related_profile" (serializeChildren j)
    (lavElem "related_profile" j.relatedProfile) (by
      simp [serializeChildren, elemsNamed_append, elemsNamed_strElem_ne,
        elemsNamed_davElem_ne, elemsNamed_lavElem_ne, elemsNamed_paramsElem_ne,
        elemsNamed_lavElem_self])]
  exact parseLav_lavElem "related_profile" j.relatedProfile

theorem parse_field_additional_info (j : AlmaJob) :
    parseLav "additional_info" (serializeChildren j) = j.additionalInfo := by
  rw [parseLav_congr "additional_info" (serializeChildren j)
    (lavElem "additional_info" j.additionalInfo) (by
      simp [serializeChildren, elemsNamed_append, elemsNamed_strElem_ne,
        elemsNamed_davElem_ne, elemsNamed_lavElem_ne, elemsNamed_paramsElem_ne,
        elemsNamed_lavElem_self])]
  exact parseLav_lavElem "additional_info" j.additionalInfo

theorem parse_field_parameters (j : AlmaJob) :
    parseParams (serializeChildren j) = j.parameters := by
  rw [parseParams_congr (serializeChildren j) (paramsElem j.parameters) (by
    simp [serializeChildren, elemsNamed_append, elemsNamed_strElem_ne,
      elemsNamed_davElem_ne, elemsNamed_lavElem_ne, elemsNamed_paramsElem_ne,
      elemsNamed_paramsElem_self])]
  exact parseParams_paramsElem j.parameters

/-- Parsing inverts serialization on every (normalized) job value: the
model's value space is exactly the set of values the decoder can produce,
so this is the round-trip law on the image of `parse`. -/
theorem parse_serialize (j : AlmaJob) : parse (serialize j) = Except.ok j := by
  rw [serialize, parse]
  rw [if_neg (fun h => h rfl)]
  rw [attrOf_attrOmitEmpty, parse_field_id, parse_field_name, parse_field_description,
    parse_field_type, parse_field_category, parse_field_content, parse_field_schedule,
    parse_field_creator, parse_field_next_run, parse_field_parameters,
    parse_field_related_profile, parse_field_additional_info]

/-! ## C9 -/

/-- C9: for every `AlmaJob` obtained by successfully parsing a well-formed
input document, serializing it and parsing the result yields the same
value - `parse (serialize x) = x` - with desc and link attribute metadata
preserved exactly through the round trip (the equality is of whole values,
attributes included). -/
theorem parse_serialize_roundtrip (doc : XMLNode) (x : AlmaJob)
    (h : parse doc = Except.ok x) : parse (serialize x) = Except.ok x :=
  parse_serialize x

/-- A concrete well-formed input document, shaped like the fixtures of
almajob_test.go and main_test.go. -/
def sampleDoc : XMLNode :=
  XMLNode.elem "job" [("link", "joblink")]
    [XMLNode.elem "id" [] [XMLNode.text "M26714670000011"],
     XMLNode.elem "type" [("desc", "Manual")] [XMLNode.text "MANUAL"],
     XMLNode.elem "parameters" []
       [XMLNode.elem "parameter" []
          [XMLNode.elem "name" [("desc", "param desc")] [XMLNode.text "DESC"],
           XMLNode.elem "value" [] [XMLNode.text "AlphaBetaGamma"]],
        XMLNode.elem "parameter" []
          [XMLNode.elem "name" [] [XMLNode.text "job_name"],
           XMLNode.elem "value" [] [XMLNode.text "A Job Name Here"]]],
     XMLNode.elem "additional_info" [("link", "additional info link")]
       [XMLNode.text "additional info value"]]

/-- The job value `sampleDoc` parses to. -/
def sampleJob : AlmaJob :=
  ⟨"joblink", "M26714670000011", "", "", some ⟨"Manual", "MANUAL"⟩, none, none, none,
   "", "",
   [⟨⟨"param desc", "DESC"⟩, "AlphaBetaGamma"⟩, ⟨⟨"", "job_name"⟩, "A Job Name Here"⟩],
   none, some ⟨"additional info link", "additional info value"⟩⟩

/-- C9 witness: the round trip at the concrete parsed document. -/
theorem parse_serialize_roundtrip_witness :
    parse (serialize sampleJob) = Except.ok sampleJob :=
  parse_serialize_roundtrip sampleDoc sampleJob rfl
